import Mathlib

/-!
Shallow embedding of `src/glue-workflow/customer_churn_ml_pipeline_glue_workflow.ipynb`.

The notebook is a straight-line operational script against managed AWS APIs:
it creates an AWS Glue workflow with two jobs and two triggers, uploads the
job scripts (and the raw dataset) to S3, starts a workflow run, polls the run
status on a fixed 30-second interval, downloads the produced test split,
invokes the deployed SageMaker endpoint with a CSV payload, and finally
deletes the Glue resources and the endpoint.

The embedding below models each remote API call by the request record the
notebook builds for it, and the script as the ordered list of those calls
(`script_trace`).  Session-dependent inputs that the notebook obtains from
its environment (the `uuid.uuid4().hex` value, the `datetime.now()`
components, the default S3 bucket, the SageMaker execution role, the XGBoost
image URI, the Glue role ARN returned by `setup_iam_roles.create_glue_role`,
the terminal status the poll loop observes, and the downloaded test
dataframe) are collected in a `Session` record and everything is proved for
an arbitrary session.
-/

namespace GlueML

/-- A pandas dataframe as produced by `pd.read_csv(..., header=None)`:
rectangular, with integer column labels `0 .. ncols-1`.  Cells are kept as
their rendered string form (the notebook only moves them between CSV
serializations). -/
structure Dataframe where
  ncols : Nat
  rows : List (List String)
  rect : ∀ r ∈ rows, r.length = ncols

/-- `df.columns` for a `header=None` dataframe: the integer labels `0..ncols-1`. -/
def Dataframe.columns (df : Dataframe) : List Nat := List.range df.ncols

/-- Column selection `df[cols]`: every row restricted to the entries at the
selected column labels. -/
def Dataframe.selectCols (df : Dataframe) (cols : List Nat) : List (List String) :=
  df.rows.map (fun r => cols.map (fun c => r.getD c ""))

/-- Session-dependent inputs of one notebook execution. -/
structure Session where
  /-- `id = uuid.uuid4().hex` -/
  id : String
  /-- `datetime.now().month` -/
  month : Nat
  /-- `datetime.now().day` -/
  day : Nat
  /-- `datetime.now().hour` -/
  hour : Nat
  /-- `datetime.now().minute` -/
  minute : Nat
  /-- `bucket = session.default_bucket()` -/
  bucket : String
  /-- `sagemaker_execution_role = sagemaker.get_execution_role()` -/
  sagemakerExecutionRole : String
  /-- `image_uri = sagemaker.image_uris.retrieve(...)` -/
  imageUri : String
  /-- `glue_role_arn = setup_iam_roles.create_glue_role(...)` (external code) -/
  glueRoleArn : String
  /-- the terminal status at which the polling loop of the run cell exits -/
  terminalStatus : String
  /-- the dataframe read from the downloaded `test.csv` -/
  testDf : Dataframe

/-- `glue_workflow_name = f"CustomerChurnMLWorkflow-{id}"` -/
def glue_workflow_name (id : String) : String := "CustomerChurnMLWorkflow-" ++ id

/-- `data_processing_job_name = f"DataProcessingJob-{id}"` -/
def data_processing_job_name (id : String) : String := "DataProcessingJob-" ++ id

/-- `model_training_deployment_job_name = f"ModelTrainingDeploymentJob-{id}"` -/
def model_training_deployment_job_name (id : String) : String :=
  "ModelTrainingDeploymentJob-" ++ id

/-- `data_processing_trigger_name = f'TriggerDataProcessingJob-{id}'` -/
def data_processing_trigger_name (id : String) : String :=
  "TriggerDataProcessingJob-" ++ id

/-- `model_train_deploy_trigger_name = f'TriggerModelTrainingDeploymentJob-{id}'` -/
def model_train_deploy_trigger_name (id : String) : String :=
  "TriggerModelTrainingDeploymentJob-" ++ id

/-- `timestamp_suffix = str(month) + "-" + str(day) + "-" + str(hour) + "-" + str(minute)` -/
def timestamp_suffix (month day hour minute : Nat) : String :=
  toString month ++ "-" ++ toString day ++ "-" ++ toString hour ++ "-" ++ toString minute

/-- `endpoint_name = f"gw-customer-churn-endpoint-{timestamp_suffix}"` -/
def endpoint_name (s : Session) : String :=
  "gw-customer-churn-endpoint-" ++ timestamp_suffix s.month s.day s.hour s.minute

/-- `prefix = 'sagemaker/DEMO-xgboost-customer-churn'` (the notebook's S3 key
base; renamed here because `prefix` is not usable as a Lean identifier). -/
def s3_key_base : String := "sagemaker/DEMO-xgboost-customer-churn"

/-- `raw_data = f"s3://{bucket}/{prefix}/input"` -/
def raw_data (bucket : String) : String := "s3://" ++ bucket ++ "/" ++ s3_key_base ++ "/input"

/-- `processed_data = f"s3://{bucket}/{prefix}/processed"` -/
def processed_data (bucket : String) : String :=
  "s3://" ++ bucket ++ "/" ++ s3_key_base ++ "/processed"

/-- `test_data = f"{processed_data}/{test_prefix}/"` -/
def test_data (bucket : String) : String := processed_data bucket ++ "/" ++ "test" ++ "/"

/-- `model_output_path = f"s3://{bucket}/{prefix}/output"` -/
def model_output_path (bucket : String) : String :=
  "s3://" ++ bucket ++ "/" ++ s3_key_base ++ "/output"

/-- `f"s3://{bucket}/{prefix}/glue/scripts"`, the `desired_s3_uri` of both
script uploads. -/
def scripts_s3_uri (bucket : String) : String :=
  "s3://" ++ bucket ++ "/" ++ s3_key_base ++ "/glue/scripts"

/-- `S3Uploader.upload(local_path, desired_s3_uri)` places the file under
`desired_s3_uri` keyed by its base name and returns that S3 URI. -/
def s3_upload (desired_s3_uri base_name : String) : String :=
  desired_s3_uri ++ "/" ++ base_name

/-- `data_processing_script_path = S3Uploader.upload("./code/glue_preprocessing.py", ...)` -/
def data_processing_script_path (bucket : String) : String :=
  s3_upload (scripts_s3_uri bucket) "glue_preprocessing.py"

/-- `model_training_deployment_script_path = S3Uploader.upload("./code/model_training_deployment.py", ...)` -/
def model_training_deployment_script_path (bucket : String) : String :=
  s3_upload (scripts_s3_uri bucket) "model_training_deployment.py"

/-- The parameters of a `glue_client.create_job(...)` call. -/
structure CreateJobRequest where
  name : String
  description : String
  role : String
  /-- `ExecutionProperty.MaxConcurrentRuns` -/
  maxConcurrentRuns : Nat
  /-- `Command.Name` -/
  commandName : String
  /-- `Command.ScriptLocation` -/
  scriptLocation : String
  /-- `Command.PythonVersion`, when passed -/
  pythonVersion : Option String
  defaultArguments : List (String × String)
  maxRetries : Nat
  timeout : Nat
  maxCapacity : ℚ
  glueVersion : String
deriving DecidableEq

/-- One entry of a trigger's `Actions` list. -/
structure TriggerAction where
  jobName : String
  arguments : List (String × String)
deriving DecidableEq

/-- One entry of a conditional trigger's `Predicate.Conditions` list. -/
structure TriggerCondition where
  logicalOperator : String
  jobName : String
  state : String
deriving DecidableEq

/-- The parameters of a `glue_client.create_trigger(...)` call. -/
structure CreateTriggerRequest where
  name : String
  description : String
  /-- the `Type` parameter -/
  triggerType : String
  workflowName : String
  /-- `StartOnCreation`; not passed for the ON_DEMAND trigger (service default false) -/
  startOnCreation : Bool
  /-- `Predicate.Conditions`; empty when no `Predicate` is passed -/
  predicateConditions : List TriggerCondition
  actions : List TriggerAction
deriving DecidableEq

/-- The `create_job` call of the data-preprocessing cell. -/
def dataProcessingJob (s : Session) : CreateJobRequest :=
  { name := data_processing_job_name s.id
    description := "Preparing data for SageMaker training"
    role := s.glueRoleArn
    maxConcurrentRuns := 2
    commandName := "glueetl"
    scriptLocation := data_processing_script_path s.bucket
    pythonVersion := none
    defaultArguments :=
      [("--job-bookmark-option", "job-bookmark-enable"),
       ("--enable-metrics", ""),
       ("--additional-python-modules", "pyarrow==2,awswrangler==2.9.0,fsspec==0.7.4")]
    maxRetries := 0
    timeout := 60
    maxCapacity := 10
    glueVersion := "2.0" }

/-- The `create_job` call of the model-training/deployment cell. -/
def modelTrainingDeploymentJob (s : Session) : CreateJobRequest :=
  { name := model_training_deployment_job_name s.id
    description := "Model training and deployment"
    role := s.glueRoleArn
    maxConcurrentRuns := 2
    commandName := "pythonshell"
    scriptLocation := model_training_deployment_script_path s.bucket
    pythonVersion := some "3"
    defaultArguments :=
      [("--job-bookmark-option", "job-bookmark-enable"),
       ("--enable-metrics", "")]
    maxRetries := 0
    timeout := 60
    maxCapacity := 1
    glueVersion := "1.0" }

/-- The single entry of the ON_DEMAND trigger's `Actions` list. -/
def data_processing_action (s : Session) : TriggerAction :=
  { jobName := data_processing_job_name s.id
    arguments :=
      [("--INPUT_DIR", raw_data s.bucket),
       ("--PROCESSED_DIR", processed_data s.bucket)] }

/-- The single entry of the CONDITIONAL trigger's `Actions` list. -/
def model_train_deploy_action (s : Session) : TriggerAction :=
  { jobName := model_training_deployment_job_name s.id
    arguments :=
      [("--train_input_path", processed_data s.bucket),
       ("--model_output_path", model_output_path s.bucket),
       ("--algorithm_image", s.imageUri),
       ("--role_arn", s.sagemakerExecutionRole),
       ("--endpoint_name", endpoint_name s)] }

/-- The ON_DEMAND `create_trigger` call. -/
def data_processing_trigger (s : Session) : CreateTriggerRequest :=
  { name := data_processing_trigger_name s.id
    description := "Triggering Data Processing Job"
    triggerType := "ON_DEMAND"
    workflowName := glue_workflow_name s.id
    startOnCreation := false
    predicateConditions := []
    actions := [data_processing_action s] }

/-- The CONDITIONAL `create_trigger` call. -/
def model_train_deploy_trigger (s : Session) : CreateTriggerRequest :=
  { name := model_train_deploy_trigger_name s.id
    description := "Triggering Model Training Deployment Job"
    triggerType := "CONDITIONAL"
    workflowName := glue_workflow_name s.id
    startOnCreation := true
    predicateConditions :=
      [{ logicalOperator := "EQUALS"
         jobName := data_processing_job_name s.id
         state := "SUCCEEDED" }]
    actions := [model_train_deploy_action s] }

/-- The parameters of a `runtime_client.invoke_endpoint(...)` call.  The
`Body` is a byte string; since the notebook builds it as the UTF-8 encoding
of a Lean-representable string, it is modelled as that string. -/
structure InvokeEndpointRequest where
  endpointName : String
  contentType : String
  body : String
deriving DecidableEq

/-- The parameters of the `glue_client.get_workflow_run(...)` call issued by
`check_workflow_state`. -/
structure GetWorkflowRunRequest where
  name : String
  runId : String
  includeGraph : Bool
deriving DecidableEq

/-- `check_workflow_state(workflow_name, run_id)` issues this request and
returns `resp['Run']['Status']`. -/
def check_workflow_state_request (workflow_name run_id : String) : GetWorkflowRunRequest :=
  { name := workflow_name, runId := run_id, includeGraph := true }

/-- The request the loop body issues on every iteration: the workflow name
and the `RunId` taken from the `start_workflow_run` response. -/
def poll_request (s : Session) (run_id : String) : GetWorkflowRunRequest :=
  check_workflow_state_request (glue_workflow_name s.id) run_id

/-- `['COMPLETED', 'STOPPED', 'ERROR']`, the statuses at which the loop breaks. -/
def terminal_states : List String := ["COMPLETED", "STOPPED", "ERROR"]

/-- Observable behaviour of one iteration of the `while True` polling loop. -/
structure PollIteration where
  /-- the argument of the `print` call of this iteration -/
  printed : String
  /-- whether the iteration reaches `break` -/
  exits : Bool
  /-- the seconds slept at the end of the iteration (`break` skips the sleep) -/
  sleepSeconds : Nat
deriving DecidableEq

/-- The body of the polling loop, as a function of the fetched status:
`if workflow_status in ['COMPLETED','STOPPED','ERROR']: print(status); break
else: print('.')` followed by `time.sleep(30)` (which the `break` skips). -/
def poll_iteration (workflow_status : String) : PollIteration :=
  if workflow_status ∈ terminal_states then
    { printed := workflow_status, exits := true, sleepSeconds := 0 }
  else
    { printed := ".", exits := false, sleepSeconds := 30 }

/-- The `while True` loop run against the stream of statuses the service
returns, with explicit fuel: iteration `start` fetches `status_at start`,
breaks on a terminal status, and otherwise continues.  `none` means the
fuel ran out before the loop broke. -/
def poll_loop_fuel (status_at : Nat → String) : Nat → Nat → Option String
  | _, 0 => none
  | start, fuel + 1 =>
    if status_at start ∈ terminal_states then some (status_at start)
    else poll_loop_fuel status_at (start + 1) fuel

/-- The loop terminates on a status stream iff some finite fuel suffices. -/
def poll_loop_terminates (status_at : Nat → String) : Prop :=
  ∃ fuel, (poll_loop_fuel status_at 0 fuel).isSome = true

/-- `to_csv(header=False, index=False)` of a list of rows: each row's cells
joined with commas, each row terminated by a newline; no header line and no
index column.  (Quoting of cells containing separator characters is not
modelled; the notebook's cells are numeric.) -/
def to_csv (rows : List (List String)) : String :=
  String.join (rows.map (fun r => String.intercalate "," r ++ "\n"))

/-- `payload = df[df.columns[1:]].to_csv(header=False, index=False).encode("utf-8")`.
UTF-8 encoding is the identity in this string model. -/
def payload (df : Dataframe) : String :=
  to_csv (df.selectCols (df.columns.drop 1))

/-- The `invoke_endpoint` call of the evaluation cell. -/
def evaluation_request (s : Session) : InvokeEndpointRequest :=
  { endpointName := endpoint_name s
    contentType := "text/csv"
    body := payload s.testDf }

/-- `result.split(',')`: the response body split at commas. -/
def prediction_tokens (result : String) : List String := result.splitOn ","

/-- `predictions = np.asarray(result.split(','), dtype=float)`: every
comma-separated token converted to a float.  The float conversion itself is
left as a parameter (IEEE parsing is not modelled); the structure — split at
commas, convert each token — is the embedded part. -/
def predictions {F : Type} (float_of_string : String → F) (result : String) : List F :=
  (prediction_tokens result).map float_of_string

/-- `df[0]`, the first column of the test dataframe, used as the `actuals`
row labels of the final cross-tabulation. -/
def actuals (df : Dataframe) : List String :=
  df.rows.map (fun r => r.getD 0 "")

/-- One externally visible operation of the notebook, in the order the cells
perform them. -/
inductive Event where
  /-- `setup_iam_roles.create_glue_role(glue_role_name, bucket)` -/
  | createRole (roleName : String)
  /-- `S3Uploader.upload(...)`, recorded by the resulting S3 object URI -/
  | upload (s3uri : String)
  /-- `glue_client.create_workflow(Name=..., Description=...)` -/
  | createWorkflow (name description : String)
  /-- `glue_client.create_job(...)` -/
  | createJob (req : CreateJobRequest)
  /-- `glue_client.create_trigger(...)` -/
  | createTrigger (req : CreateTriggerRequest)
  /-- `glue_client.start_workflow_run(Name=...)` -/
  | startWorkflowRun (workflowName : String)
  /-- the polling loop reaching a terminal status and breaking -/
  | pollTerminal (status : String)
  /-- `S3Downloader.download(...)` -/
  | download (s3uri : String)
  /-- `runtime_client.invoke_endpoint(...)` -/
  | invokeEndpoint (req : InvokeEndpointRequest)
  /-- `glue_client.delete_job(JobName=...)` -/
  | deleteJob (jobName : String)
  /-- `glue_client.delete_trigger(Name=...)` -/
  | deleteTrigger (name : String)
  /-- `glue_client.delete_workflow(Name=...)` -/
  | deleteWorkflow (name : String)
  /-- `sagemaker_client.delete_endpoint(EndpointName=...)` -/
  | deleteEndpoint (endpointName : String)
deriving DecidableEq

/-- The notebook's externally visible operations, in cell order. -/
def script_trace (s : Session) : List Event :=
  [Event.createRole "AWS-Glue-S3-SageMaker-Access",
   Event.upload (s3_upload (raw_data s.bucket) "churn_processed.csv"),
   Event.createWorkflow (glue_workflow_name s.id)
     "AWS Glue workflow to process data and create training jobs",
   Event.upload (data_processing_script_path s.bucket),
   Event.createJob (dataProcessingJob s),
   Event.upload (model_training_deployment_script_path s.bucket),
   Event.createJob (modelTrainingDeploymentJob s),
   Event.createTrigger (data_processing_trigger s),
   Event.createTrigger (model_train_deploy_trigger s),
   Event.startWorkflowRun (glue_workflow_name s.id),
   Event.pollTerminal s.terminalStatus,
   Event.download (test_data s.bucket ++ "test.csv"),
   Event.invokeEndpoint (evaluation_request s),
   Event.deleteJob (data_processing_job_name s.id),
   Event.deleteJob (model_training_deployment_job_name s.id),
   Event.deleteTrigger (data_processing_trigger_name s.id),
   Event.deleteTrigger (model_train_deploy_trigger_name s.id),
   Event.deleteWorkflow (glue_workflow_name s.id),
   Event.deleteEndpoint (endpoint_name s)]

/-- `true` exactly on `create_job` events. -/
def Event.isCreateJob : Event → Bool
  | .createJob _ => true
  | _ => false

/-- `true` exactly on `create_trigger` events. -/
def Event.isCreateTrigger : Event → Bool
  | .createTrigger _ => true
  | _ => false

/-- The `create_job` request carried by an event, when there is one. -/
def Event.jobReq : Event → Option CreateJobRequest
  | .createJob req => some req
  | _ => none

/-- The `create_trigger` request carried by an event, when there is one. -/
def Event.triggerReq : Event → Option CreateTriggerRequest
  | .createTrigger req => some req
  | _ => none

/-- The phase of the script an event belongs to: 0 setup/creation (role, S3
uploads, workflow, jobs, triggers), 1 starting the run, 2 polling to a
terminal status, 3 evaluation (download, endpoint invocation), 4 deletion. -/
def Event.phase : Event → Nat
  | .createRole _ => 0
  | .upload _ => 0
  | .createWorkflow _ _ => 0
  | .createJob _ => 0
  | .createTrigger _ => 0
  | .startWorkflowRun _ => 1
  | .pollTerminal _ => 2
  | .download _ => 3
  | .invokeEndpoint _ => 3
  | .deleteJob _ => 4
  | .deleteTrigger _ => 4
  | .deleteWorkflow _ => 4
  | .deleteEndpoint _ => 4

/-- A cloud resource the script touches, identified by kind and name. -/
inductive Resource where
  | iamRole (name : String)
  | s3Object (uri : String)
  | workflow (name : String)
  | job (name : String)
  | trigger (name : String)
  | endpoint (name : String)
deriving DecidableEq

/-- The resources an event creates. -/
def Event.creates : Event → List Resource
  | .createRole n => [.iamRole n]
  | .upload uri => [.s3Object uri]
  | .createWorkflow n _ => [.workflow n]
  | .createJob req => [.job req.name]
  | .createTrigger req => [.trigger req.name]
  | _ => []

/-- The resources an event deletes. -/
def Event.deletes : Event → List Resource
  | .deleteJob n => [.job n]
  | .deleteTrigger n => [.trigger n]
  | .deleteWorkflow n => [.workflow n]
  | .deleteEndpoint n => [.endpoint n]
  | _ => []

/-- All resources a trace creates directly. -/
def created_resources (t : List Event) : List Resource := t.flatMap Event.creates

/-- All resources a trace deletes. -/
def deleted_resources (t : List Event) : List Resource := t.flatMap Event.deletes

/-- Modelled from the spec: the model-training/deployment Glue job
(`code/model_training_deployment.py`, not under `src/`) "invokes a deployed
inference endpoint" — it deploys a SageMaker endpoint under the name the
notebook passes as the `--endpoint_name` trigger argument.  The resources a
session provisions are therefore the ones its trace creates directly plus
that endpoint. -/
def provisioned_resources (s : Session) : List Resource :=
  created_resources (script_trace s) ++ [.endpoint (endpoint_name s)]

/-- The provisioned resources the clean-up cells never delete: the IAM role
and the three uploaded S3 objects. -/
def undeleted_leftovers (s : Session) : List Resource :=
  [.iamRole "AWS-Glue-S3-SageMaker-Access",
   .s3Object (s3_upload (raw_data s.bucket) "churn_processed.csv"),
   .s3Object (data_processing_script_path s.bucket),
   .s3Object (model_training_deployment_script_path s.bucket)]

/-- A concrete session for witness instantiations. -/
def sampleSession : Session :=
  { id := "0123abcd"
    month := 10
    day := 12
    hour := 9
    minute := 30
    bucket := "sagemaker-us-east-1-000000000000"
    sagemakerExecutionRole := "arn:aws:iam::000000000000:role/SageMakerRole"
    imageUri := "image-uri"
    glueRoleArn := "arn:aws:iam::000000000000:role/AWS-Glue-S3-SageMaker-Access"
    terminalStatus := "COMPLETED"
    testDf := { ncols := 3, rows := [["1", "0.5", "7"], ["0", "0.25", "8"]], rect := by decide } }

/-- A second concrete session: same clock minute, different uuid. -/
def sampleSession2 : Session :=
  { sampleSession with id := "ffff9999" }

/-- Appending a common suffix to prefixes of different lengths yields
different strings. -/
theorem append_ne_of_length_ne (p q r : String) (h : p.length ≠ q.length) :
    p ++ r ≠ q ++ r := by
  intro he
  apply h
  have hl := congrArg String.length he
  rw [String.length_append, String.length_append] at hl
  omega

/-- The five Glue resource names of one session. -/
def glue_resource_names (id : String) : List String :=
  [glue_workflow_name id, data_processing_job_name id,
   model_training_deployment_job_name id, data_processing_trigger_name id,
   model_train_deploy_trigger_name id]

/-- The lengths of the five Glue resource names. -/
theorem glue_resource_names_lengths (id : String) :
    (glue_resource_names id).map String.length =
      [24 + id.length, 18 + id.length, 27 + id.length, 25 + id.length, 34 + id.length] := by
  have e1 : ("CustomerChurnMLWorkflow-").length = 24 := rfl
  have e2 : ("DataProcessingJob-").length = 18 := rfl
  have e3 : ("ModelTrainingDeploymentJob-").length = 27 := rfl
  have e4 : ("TriggerDataProcessingJob-").length = 25 := rfl
  have e5 : ("TriggerModelTrainingDeploymentJob-").length = 34 := rfl
  simp [glue_resource_names, glue_workflow_name, data_processing_job_name,
    model_training_deployment_job_name, data_processing_trigger_name,
    model_train_deploy_trigger_name, String.length_append, e1, e2, e3, e4, e5]

/-- C1: within one Glue workflow the script creates exactly two jobs and
exactly two triggers; the first trigger is ON_DEMAND and its single action
starts the data-preprocessing job, and the second is CONDITIONAL with the
single predicate condition [JobName = data-preprocessing job,
LogicalOperator EQUALS, State SUCCEEDED] and its single action starts the
model-training/deployment job. -/
theorem c1_two_step_graph (s : Session) :
    Event.createWorkflow (glue_workflow_name s.id)
        "AWS Glue workflow to process data and create training jobs" ∈ script_trace s ∧
    ((script_trace s).filter Event.isCreateJob).length = 2 ∧
    ((script_trace s).filterMap Event.jobReq).map CreateJobRequest.name =
      [data_processing_job_name s.id, model_training_deployment_job_name s.id] ∧
    (script_trace s).filterMap Event.triggerReq =
      [data_processing_trigger s, model_train_deploy_trigger s] ∧
    (data_processing_trigger s).workflowName = glue_workflow_name s.id ∧
    (model_train_deploy_trigger s).workflowName = glue_workflow_name s.id ∧
    (data_processing_trigger s).triggerType = "ON_DEMAND" ∧
    (data_processing_trigger s).actions.map TriggerAction.jobName =
      [data_processing_job_name s.id] ∧
    (model_train_deploy_trigger s).triggerType = "CONDITIONAL" ∧
    (model_train_deploy_trigger s).predicateConditions =
      [{ logicalOperator := "EQUALS", jobName := data_processing_job_name s.id,
         state := "SUCCEEDED" }] ∧
    (model_train_deploy_trigger s).actions.map TriggerAction.jobName =
      [model_training_deployment_job_name s.id] := by
  refine ⟨?_, rfl, rfl, rfl, rfl, rfl, rfl, rfl, rfl, rfl, rfl⟩
  simp [script_trace]

/-- C4: every `create_job` call in the script passes `MaxRetries=0`. -/
theorem c4_max_retries_zero (s : Session) :
    ∀ e ∈ script_trace s, ∀ req, e = Event.createJob req → req.maxRetries = 0 := by
  intro e he req hreq
  subst hreq
  simp only [script_trace, List.mem_cons, List.not_mem_nil, or_false] at he
  rcases he with h|h|h|h|h|h|h|h|h|h|h|h|h|h|h|h|h|h|h <;>
    simp_all [dataProcessingJob, modelTrainingDeploymentJob]

/-- Witness for C4 at a concrete session and the data-processing job. -/
theorem c4_max_retries_zero_witness : (dataProcessingJob sampleSession).maxRetries = 0 :=
  c4_max_retries_zero sampleSession (Event.createJob (dataProcessingJob sampleSession))
    (by simp [script_trace]) (dataProcessingJob sampleSession) rfl

/-- C10: the five Glue resource names embed the session's one uuid hex and
are pairwise distinct; they are functions of that id alone (two sessions
with the same id get the same five names); the endpoint name is a function
of the month-day-hour-minute timestamp alone, so two sessions started in the
same minute produce the same endpoint name even with different ids. -/
theorem c10_resource_names (s t : Session) :
    (glue_resource_names s.id).Nodup ∧
    (s.id = t.id → glue_resource_names s.id = glue_resource_names t.id) ∧
    (s.month = t.month → s.day = t.day → s.hour = t.hour → s.minute = t.minute →
      endpoint_name s = endpoint_name t) := by
  refine ⟨?_, ?_, ?_⟩
  · apply List.Nodup.of_map String.length
    rw [glue_resource_names_lengths]
    simp [List.nodup_cons]
  · intro h
    rw [h]
  · intro h1 h2 h3 h4
    rw [endpoint_name, endpoint_name, h1, h2, h3, h4]

/-- Witness for C10: concrete distinct names, and two sessions in the same
clock minute with different ids sharing the endpoint name. -/
theorem c10_resource_names_witness :
    (glue_resource_names "0123abcd").Nodup ∧
    sampleSession.id ≠ sampleSession2.id ∧
    endpoint_name sampleSession = endpoint_name sampleSession2 :=
  ⟨(c10_resource_names sampleSession sampleSession2).1,
   by decide,
   (c10_resource_names sampleSession sampleSession2).2.2 rfl rfl rfl rfl⟩

/-- C2: each polling iteration issues `get_workflow_run` for the workflow
name and the `RunId` of the started run; exactly the three statuses
COMPLETED, STOPPED, ERROR are terminal; on a terminal status the iteration
prints that status and exits without sleeping, and on any other status it
prints '.' and sleeps exactly 30 seconds. -/
theorem c2_poll_iteration_behaviour (s : Session) (run_id st : String) :
    poll_request s run_id =
      { name := glue_workflow_name s.id, runId := run_id, includeGraph := true } ∧
    (st ∈ terminal_states ↔ st = "COMPLETED" ∨ st = "STOPPED" ∨ st = "ERROR") ∧
    (st ∈ terminal_states →
      poll_iteration st = { printed := st, exits := true, sleepSeconds := 0 }) ∧
    (st ∉ terminal_states →
      poll_iteration st = { printed := ".", exits := false, sleepSeconds := 30 }) := by
  refine ⟨rfl, ?_, ?_, ?_⟩
  · simp [terminal_states]
  · intro h
    simp [poll_iteration, h]
  · intro h
    simp [poll_iteration, h]

/-- Witness for C2 at a terminal and a non-terminal status. -/
theorem c2_poll_iteration_behaviour_witness :
    poll_iteration "COMPLETED" =
      { printed := "COMPLETED", exits := true, sleepSeconds := 0 } ∧
    poll_iteration "RUNNING" =
      { printed := ".", exits := false, sleepSeconds := 30 } :=
  ⟨(c2_poll_iteration_behaviour sampleSession "rid" "COMPLETED").2.2.1 (by decide),
   (c2_poll_iteration_behaviour sampleSession "rid" "RUNNING").2.2.2 (by decide)⟩

/-- The fuelled polling loop finds a result iff a terminal status occurs
within the fuel, counting polls from `start`. -/
theorem poll_loop_fuel_isSome_iff (status_at : Nat → String) :
    ∀ fuel start, (poll_loop_fuel status_at start fuel).isSome = true ↔
      ∃ k, k < fuel ∧ status_at (start + k) ∈ terminal_states := by
  intro fuel
  induction fuel with
  | zero =>
      intro start
      simp [poll_loop_fuel]
  | succ m ih =>
      intro start
      rw [poll_loop_fuel]
      by_cases h : status_at start ∈ terminal_states
      · rw [if_pos h]
        refine iff_of_true rfl ⟨0, Nat.succ_pos m, ?_⟩
        simpa using h
      · rw [if_neg h, ih (start + 1)]
        constructor
        · rintro ⟨k, hk, ht⟩
          refine ⟨k + 1, by omega, ?_⟩
          have harith : start + (k + 1) = start + 1 + k := by omega
          rw [harith]
          exact ht
        · rintro ⟨k, hk, ht⟩
          cases k with
          | zero =>
              rw [Nat.add_zero] at ht
              exact absurd ht h
          | succ k2 =>
              refine ⟨k2, by omega, ?_⟩
              have harith : start + 1 + k2 = start + (k2 + 1) := by omega
              rw [harith]
              exact ht

/-- C3: the polling loop has no timeout or iteration bound — it terminates
iff some poll returns a status in {COMPLETED, STOPPED, ERROR}, and on any
status stream that never returns one of the three it never terminates. -/
theorem c3_poll_loop_terminates_iff (status_at : Nat → String) :
    (poll_loop_terminates status_at ↔ ∃ n, status_at n ∈ terminal_states) ∧
    ((∀ n, status_at n ∉ terminal_states) → ¬ poll_loop_terminates status_at) := by
  have key : poll_loop_terminates status_at ↔ ∃ n, status_at n ∈ terminal_states := by
    unfold poll_loop_terminates
    constructor
    · rintro ⟨fuel, hf⟩
      rcases (poll_loop_fuel_isSome_iff status_at fuel 0).1 hf with ⟨k, _, hk⟩
      exact ⟨k, by simpa using hk⟩
    · rintro ⟨n, hn⟩
      exact ⟨n + 1, (poll_loop_fuel_isSome_iff status_at (n + 1) 0).2
        ⟨n, by omega, by simpa using hn⟩⟩
  refine ⟨key, fun hall ht => ?_⟩
  rcases key.1 ht with ⟨n, hn⟩
  exact hall n hn

/-- Witness for C3: on the constant RUNNING stream the loop never terminates. -/
theorem c3_poll_loop_terminates_iff_witness :
    ¬ poll_loop_terminates (fun _ => "RUNNING") :=
  (c3_poll_loop_terminates_iff (fun _ => "RUNNING")).2 (fun _ => by decide)

/-- `a` occurs strictly before `b` in `l`. -/
def precedes {α : Type} (a b : α) (l : List α) : Prop :=
  ∃ i j : Fin l.length, i < j ∧ l.get i = a ∧ l.get j = b

/-- C5: the externally visible operations occur in the fixed order
setup/creation (phase 0: IAM role, S3 uploads, workflow, jobs, triggers) →
start of the run (1) → polling to a terminal status (2) → evaluation
(3: download, endpoint invocation) → deletion (4); and each `create_job`
call is preceded by the upload of the very script object it references. -/
theorem c5_operation_order (s : Session) :
    List.Sorted (fun a b => a ≤ b) ((script_trace s).map Event.phase) ∧
    (∀ req, Event.createJob req ∈ script_trace s →
      precedes (Event.upload req.scriptLocation) (Event.createJob req) (script_trace s)) := by
  constructor
  · have hmap : (script_trace s).map Event.phase =
        [0, 0, 0, 0, 0, 0, 0, 0, 0, 1, 2, 3, 3, 4, 4, 4, 4, 4, 4] := rfl
    rw [hmap]
    decide
  · intro req hreq
    have hlen : (script_trace s).length = 19 := rfl
    simp only [script_trace, List.mem_cons, List.not_mem_nil, or_false] at hreq
    rcases hreq with h|h|h|h|h|h|h|h|h|h|h|h|h|h|h|h|h|h|h <;>
      first
        | exact Event.noConfusion h
        | (injection h with h1; subst h1;
           first
             | exact ⟨⟨3, by omega⟩, ⟨4, by omega⟩, by simp [Fin.lt_def], rfl, rfl⟩
             | exact ⟨⟨5, by omega⟩, ⟨6, by omega⟩, by simp [Fin.lt_def], rfl, rfl⟩)

/-- Witness for C5: the preprocessing script upload precedes the job that
references it, at a concrete session. -/
theorem c5_operation_order_witness :
    precedes (Event.upload (dataProcessingJob sampleSession).scriptLocation)
      (Event.createJob (dataProcessingJob sampleSession)) (script_trace sampleSession) :=
  (c5_operation_order sampleSession).2 (dataProcessingJob sampleSession)
    (by simp [script_trace])

/-- Counterexample to C6 as stated: the preprocessing script object the
script uploads to S3 is a resource the script created, and the clean-up
cells never delete it — so the clean-up does not leave nothing behind. -/
theorem c6_cleanup_counterexample :
    Resource.s3Object (data_processing_script_path sampleSession.bucket) ∈
      provisioned_resources sampleSession ∧
    Resource.s3Object (data_processing_script_path sampleSession.bucket) ∉
      deleted_resources (script_trace sampleSession) := by
  constructor
  · simp [provisioned_resources, created_resources, script_trace, Event.creates]
  · simp [deleted_resources, script_trace, Event.deletes]

/-- C6 (amended): the clean-up cells delete exactly the two Glue jobs, the
two Glue triggers, the Glue workflow and the SageMaker endpoint; every other
resource the script provisioned — the IAM role and the three uploaded S3
objects — is left behind undeleted. -/
theorem c6_cleanup_amended (s : Session) :
    deleted_resources (script_trace s) =
      [Resource.job (data_processing_job_name s.id),
       Resource.job (model_training_deployment_job_name s.id),
       Resource.trigger (data_processing_trigger_name s.id),
       Resource.trigger (model_train_deploy_trigger_name s.id),
       Resource.workflow (glue_workflow_name s.id),
       Resource.endpoint (endpoint_name s)] ∧
    (∀ r ∈ provisioned_resources s,
      r ∈ deleted_resources (script_trace s) ∨ r ∈ undeleted_leftovers s) ∧
    (∀ r ∈ undeleted_leftovers s, r ∉ deleted_resources (script_trace s)) := by
  refine ⟨rfl, ?_, ?_⟩
  · intro r hr
    simp only [provisioned_resources, created_resources, script_trace, Event.creates,
      List.flatMap_cons, List.flatMap_nil, List.append_nil, List.nil_append,
      List.singleton_append, List.cons_append, List.mem_cons, List.mem_append,
      List.not_mem_nil, or_false] at hr
    have hdel : ∀ r ∈ [Resource.job (dataProcessingJob s).name,
        Resource.job (modelTrainingDeploymentJob s).name,
        Resource.trigger (data_processing_trigger s).name,
        Resource.trigger (model_train_deploy_trigger s).name,
        Resource.workflow (glue_workflow_name s.id),
        Resource.endpoint (endpoint_name s)],
        r ∈ deleted_resources (script_trace s) := by
      intro r hr
      simp only [List.mem_cons, List.not_mem_nil, or_false] at hr
      rcases hr with rfl|rfl|rfl|rfl|rfl|rfl <;>
        simp [deleted_resources, script_trace, Event.deletes, dataProcessingJob,
          modelTrainingDeploymentJob, data_processing_trigger, model_train_deploy_trigger]
    rcases hr with rfl|rfl|rfl|rfl|rfl|rfl|rfl|rfl|rfl|rfl
    · exact Or.inr (by simp [undeleted_leftovers])
    · exact Or.inr (by simp [undeleted_leftovers])
    · exact Or.inl (hdel _ (by simp))
    · exact Or.inr (by simp [undeleted_leftovers])
    · exact Or.inl (hdel _ (by simp))
    · exact Or.inr (by simp [undeleted_leftovers])
    · exact Or.inl (hdel _ (by simp))
    · exact Or.inl (hdel _ (by simp))
    · exact Or.inl (hdel _ (by simp))
    · exact Or.inl (hdel _ (by simp))
  · intro r hr
    simp only [undeleted_leftovers, List.mem_cons, List.not_mem_nil, or_false] at hr
    rcases hr with rfl|rfl|rfl|rfl <;>
      simp [deleted_resources, script_trace, Event.deletes]

/-- Witness for C6 (amended): the created workflow resource is among the
deleted ones, at a concrete session. -/
theorem c6_cleanup_amended_witness :
    Resource.workflow (glue_workflow_name sampleSession.id) ∈
      deleted_resources (script_trace sampleSession) ∨
    Resource.workflow (glue_workflow_name sampleSession.id) ∈
      undeleted_leftovers sampleSession :=
  (c6_cleanup_amended sampleSession).2.1
    (Resource.workflow (glue_workflow_name sampleSession.id))
    (by simp [provisioned_resources, created_resources, script_trace, Event.creates])

/-- C7: the endpoint is invoked with ContentType 'text/csv' and a body that
is the header-less, index-less CSV serialization of the payload dataframe,
and the response body is handled as a comma-separated list of values each
converted to a float (`np.asarray(result.split(','), dtype=float)`; the
float conversion itself is the abstract `float_of_string`). -/
theorem c7_csv_interface {F : Type} (s : Session) (float_of_string : String → F)
    (result : String) :
    (evaluation_request s).contentType = "text/csv" ∧
    (evaluation_request s).endpointName = endpoint_name s ∧
    (evaluation_request s).body = to_csv (s.testDf.selectCols (s.testDf.columns.drop 1)) ∧
    predictions float_of_string result = (result.splitOn ",").map float_of_string :=
  ⟨rfl, rfl, rfl, rfl⟩

/-- Indexing a list by the full range of its positions returns the list. -/
theorem getD_map_range (r : List String) :
    (List.range r.length).map (fun c => r.getD c "") = r := by
  induction r with
  | nil => rfl
  | cons a t ih =>
      rw [List.length_cons, List.range_succ_eq_map, List.map_cons, List.map_map]
      simp only [List.getD_cons_zero, Function.comp_def, List.getD_cons_succ]
      rw [ih]

/-- Indexing a list by positions `1..` returns its tail. -/
theorem getD_map_range_tail (r : List String) :
    ((List.range r.length).drop 1).map (fun c => r.getD c "") = r.drop 1 := by
  cases r with
  | nil => rfl
  | cons a t =>
      rw [List.length_cons, List.range_succ_eq_map]
      simp only [List.drop_succ_cons, List.drop_zero, List.map_map,
        Function.comp_def, List.getD_cons_succ]
      exact getD_map_range t

/-- `df[df.columns[1:]]` drops exactly the first entry of every row. -/
theorem selectCols_tail (df : Dataframe) :
    df.selectCols (df.columns.drop 1) = df.rows.map (fun r => r.drop 1) := by
  unfold Dataframe.selectCols Dataframe.columns
  apply List.map_congr_left
  intro r hr
  rw [← df.rect r hr]
  exact getD_map_range_tail r

/-- C9: the payload sent to the endpoint serializes, for every row of the
test dataframe, only the entries of columns `1..` — the first column, the
`actuals` labels of the later cross-tabulation, is never part of the request
body. -/
theorem c9_payload_excludes_label_column (s : Session) :
    s.testDf.selectCols (s.testDf.columns.drop 1) = s.testDf.rows.map (fun r => r.drop 1) ∧
    (evaluation_request s).body = to_csv (s.testDf.rows.map (fun r => r.drop 1)) ∧
    actuals s.testDf = s.testDf.rows.map (fun r => r.getD 0 "") := by
  have h := selectCols_tail s.testDf
  refine ⟨h, ?_, rfl⟩
  show payload s.testDf = _
  rw [payload, h]

/-- C8: every name a deletion call receives is the very string the
corresponding creation call received (the strings are immutable and are
never transformed in between): each deleted job name is the name of a
created job, each deleted trigger name the name of a created trigger, the
deleted workflow name the created workflow's name, and the deleted endpoint
name the `--endpoint_name` argument handed to the training/deployment
trigger's action. -/
theorem c8_names_flow_unchanged (s : Session) :
    (∀ n, Event.deleteJob n ∈ script_trace s →
      ∃ req, Event.createJob req ∈ script_trace s ∧ req.name = n) ∧
    (∀ n, Event.deleteTrigger n ∈ script_trace s →
      ∃ req, Event.createTrigger req ∈ script_trace s ∧ req.name = n) ∧
    (∀ n, Event.deleteWorkflow n ∈ script_trace s →
      Event.createWorkflow n
        "AWS Glue workflow to process data and create training jobs" ∈ script_trace s) ∧
    (∀ n, Event.deleteEndpoint n ∈ script_trace s →
      ∃ req a, Event.createTrigger req ∈ script_trace s ∧ a ∈ req.actions ∧
        ("--endpoint_name", n) ∈ a.arguments) := by
  refine ⟨?_, ?_, ?_, ?_⟩
  · intro n hn
    simp only [script_trace, List.mem_cons, List.not_mem_nil, or_false] at hn
    rcases hn with h|h|h|h|h|h|h|h|h|h|h|h|h|h|h|h|h|h|h <;>
      first
        | exact Event.noConfusion h
        | (injection h with h1; subst h1;
           first
             | exact ⟨dataProcessingJob s, by simp [script_trace], rfl⟩
             | exact ⟨modelTrainingDeploymentJob s, by simp [script_trace], rfl⟩)
  · intro n hn
    simp only [script_trace, List.mem_cons, List.not_mem_nil, or_false] at hn
    rcases hn with h|h|h|h|h|h|h|h|h|h|h|h|h|h|h|h|h|h|h <;>
      first
        | exact Event.noConfusion h
        | (injection h with h1; subst h1;
           first
             | exact ⟨data_processing_trigger s, by simp [script_trace], rfl⟩
             | exact ⟨model_train_deploy_trigger s, by simp [script_trace], rfl⟩)
  · intro n hn
    simp only [script_trace, List.mem_cons, List.not_mem_nil, or_false] at hn
    rcases hn with h|h|h|h|h|h|h|h|h|h|h|h|h|h|h|h|h|h|h <;>
      first
        | exact Event.noConfusion h
        | (injection h with h1; subst h1; simp [script_trace])
  · intro n hn
    simp only [script_trace, List.mem_cons, List.not_mem_nil, or_false] at hn
    rcases hn with h|h|h|h|h|h|h|h|h|h|h|h|h|h|h|h|h|h|h <;>
      first
        | exact Event.noConfusion h
        | (injection h with h1; subst h1;
           exact ⟨model_train_deploy_trigger s, model_train_deploy_action s,
             by simp [script_trace], by simp [model_train_deploy_trigger],
             by simp [model_train_deploy_action]⟩)

/-- Witness for C8: the deleted data-processing job name is a created job's
name, at a concrete session. -/
theorem c8_names_flow_unchanged_witness :
    ∃ req, Event.createJob req ∈ script_trace sampleSession ∧
      req.name = data_processing_job_name sampleSession.id :=
  (c8_names_flow_unchanged sampleSession).1 (data_processing_job_name sampleSession.id)
    (by simp [script_trace])

end GlueML
